import Mathlib

/-!
Shallow embedding of `src/backend/services/rag_service.py` from the
humanoid-book repository: a RAG query orchestrator with two operations,
`query_rag` (full-corpus mode) and `query_selected_text` (selected-text mode).

Modelling decisions:
* The three external collaborators (embedding provider, vector index,
  generation provider) are passed in as a `Providers` record whose calls
  return `Except String α`: `.error e` models a raised exception with
  message `e`, caught by the orchestrator's `try/except`.
* Each operation also returns the list of collaborator calls it made,
  in order (`CallEvent`), so that "provider X is never invoked" is statable.
* Similarity scores are modelled as exact rationals `ℚ`; `fmt3` models
  Python's `f"{score:.3f}"` fixed-point formatting (round half to even).
* Wall-clock time is not observable in the embedding: the measured elapsed
  time `time.time() - start_time` is supplied as an ambient parameter
  `elapsed`, recorded wherever the source records a response time.
* A Python result dict is modelled as `ResponseDict`, a record with one
  `Option` field per key that any branch of the source may set; `none`
  means the key is absent from the returned dict.
* `list(set(source_attribution))` iterates a Python set in an unspecified
  order; it is modelled by `List.dedup`, one admissible order. Theorems
  about the deduplicated sources are stated via `Nodup` and `toFinset`,
  which do not depend on the chosen order.
-/

/-- One search hit from the vector index. The payload dict's two keys used
by the orchestrator are modelled as `Option` fields (`none` = key absent). -/
structure Hit where
  payload_content : Option String
  payload_filename : Option String
  score : ℚ
deriving DecidableEq

/-- Process-wide configuration: the `RAGService.__init__` environment reads
plus `settings.GEMINI_MODEL`. -/
structure Config where
  similarity_threshold : ℚ
  max_results : Nat
  GEMINI_MODEL : String
deriving DecidableEq

/-- A collaborator call made by the orchestrator, with its arguments. -/
inductive CallEvent : Type where
  | embed : String → CallEvent
  | search : List ℚ → Nat → ℚ → CallEvent
  | generate : String → CallEvent
deriving DecidableEq

/-- The external collaborators. `.error e` models a raised exception. -/
structure Providers where
  get_embedding : String → Except String (List ℚ)
  search_vectors : List ℚ → Except String (List Hit)
  generate_content : String → Except String String

/-- A returned Python dict: one `Option` field per key any branch may set;
`none` means the key is absent from the dict. -/
structure ResponseDict where
  answer : Option String := none
  sources : Option (List String) := none
  chunks_used : Option Nat := none
  similarity_scores : Option (List ℚ) := none
  query : Option String := none
  response_time : Option ℚ := none
  model : Option String := none
  error : Option String := none
  source : Option String := none
  selected_text_length : Option Nat := none
deriving DecidableEq

/-- Left-pad a three-digit fractional part with zeros. -/
def pad3 (n : Nat) : String :=
  if n < 10 then "00" ++ toString n
  else if n < 100 then "0" ++ toString n
  else toString n

/-- Round the exact fraction `n / d` (with `d > 0`) to the nearest integer,
ties to even: the rounding used by Python fixed-point formatting. `fl` is the
floor and `r` the nonnegative remainder, so the fractional part is `r / d`,
compared against one half by comparing `2 * r` with `d`. -/
def roundHalfEvenDiv (n d : ℤ) : ℤ :=
  let fl : ℤ := Int.fdiv n d
  let r : ℤ := n - fl * d
  if 2 * r < d then fl
  else if d < 2 * r then fl + 1
  else if fl % 2 = 0 then fl else fl + 1

/-- Model of Python `f"{x:.3f}"` on an exact rational score: round
`x * 1000 = (x.num * 1000) / x.den` half-to-even to an integer number of
thousandths, then print it in fixed-point form. -/
def fmt3 (x : ℚ) : String :=
  let m : ℤ := roundHalfEvenDiv (x.num * 1000) (x.den : ℤ)
  if m < 0 then
    "-" ++ toString ((-m).toNat / 1000) ++ "." ++ pad3 ((-m).toNat % 1000)
  else
    toString (m.toNat / 1000) ++ "." ++ pad3 (m.toNat % 1000)

/-- `hit.payload.get("filename", f"chunk_{i}")`: filename with the synthetic
fallback for position `i`. -/
def filenameOf (i : Nat) (hit : Hit) : String :=
  hit.payload_filename.getD ("chunk_" ++ toString i)

/-- The loop of `query_rag` step 3: starting at enumeration index `i`,
build `(context_chunks, source_attribution)`; a hit whose payload has no
`content` key contributes to neither list. -/
def buildChunksAux : Nat → List Hit → List String × List String
  | _, [] => ([], [])
  | i, hit :: rest =>
    let tail := buildChunksAux (i + 1) rest
    match hit.payload_content with
    | some chunk_content =>
        (("[Source: " ++ filenameOf i hit ++ ", Score: " ++ fmt3 hit.score
            ++ "]\n" ++ chunk_content) :: tail.1,
         filenameOf i hit :: tail.2)
    | none => tail

/-- `context_chunks` as built by the enumeration loop of `query_rag`. -/
def context_chunks (hits : List Hit) : List String :=
  (buildChunksAux 0 hits).1

/-- `source_attribution` as built by the enumeration loop of `query_rag`. -/
def source_attribution (hits : List Hit) : List String :=
  (buildChunksAux 0 hits).2

/-- The full-corpus prompt template of `query_rag` step 4. -/
def ragPrompt (context query_text : String) : String :=
  "You are a knowledgeable teaching assistant for the \"Physical AI & Humanoid Robotics\" textbook.\n\nRELEVANT TEXTBOOK EXCERPTS:\n"
    ++ context
    ++ "\n\nSTUDENT QUESTION: " ++ query_text
    ++ "\n\nINSTRUCTIONS (CRITICAL):\n1. Answer STRICTLY based on the textbook excerpts above\n2. If information is NOT in the excerpts, say: \"This topic is not covered in the available textbook chapters.\"\n3. Keep answers concise and technical\n4. Reference specific chapters/sources when possible\n5. Use markdown formatting for readability\n\nASSISTANT\x27S ANSWER:"

/-- The selected-text prompt template of `query_selected_text`. -/
def selectedTextPrompt (selected_text query_text : String) : String :=
  "You are a helpful assistant. Answer based STRICTLY on the following selected text:\n\nSELECTED TEXT:\n"
    ++ selected_text
    ++ "\n\nQUESTION: " ++ query_text
    ++ "\n\nRULES:\n1. Answer ONLY from the selected text above\n2. If answer is NOT in selected text, say: \"The selected text does not contain this information.\"\n3. Do not use any external knowledge\n4. Be concise and accurate\n\nANSWER:"

/-- The dict returned by the `except` branch of `query_rag`. -/
def ragErrorResponse (query_text e : String) : ResponseDict :=
  { answer := some ("Error processing your query: " ++ e),
    sources := some [],
    error := some e,
    query := some query_text }

/-- The dict returned by the zero-hit short-circuit of `query_rag`. -/
def notFoundResponse (query_text : String) (elapsed : ℚ) : ResponseDict :=
  { answer := some "I couldn\x27t find relevant information in the textbook.",
    sources := some [],
    chunks_used := some 0,
    query := some query_text,
    response_time := some elapsed }

/-- The dict returned by the `except` branch of `query_selected_text`. -/
def selectedErrorResponse (query_text e : String) : ResponseDict :=
  { answer := some ("Error: " ++ e),
    source := some "Error",
    query := some query_text }

/-- `RAGService.query_rag`: full-corpus mode. Returns the response dict and
the ordered list of collaborator calls made. -/
def query_rag (P : Providers) (cfg : Config) (elapsed : ℚ)
    (query_text : String) : ResponseDict × List CallEvent :=
  match P.get_embedding query_text with
  | .error e => (ragErrorResponse query_text e, [.embed query_text])
  | .ok query_embedding =>
    match P.search_vectors query_embedding with
    | .error e =>
        (ragErrorResponse query_text e,
         [.embed query_text,
          .search query_embedding cfg.max_results cfg.similarity_threshold])
    | .ok search_results =>
      if search_results.isEmpty then
        (notFoundResponse query_text elapsed,
         [.embed query_text,
          .search query_embedding cfg.max_results cfg.similarity_threshold])
      else
        let chunks := context_chunks search_results
        let context := String.intercalate "\n\n---\n\n" chunks
        let prompt := ragPrompt context query_text
        match P.generate_content prompt with
        | .error e =>
            (ragErrorResponse query_text e,
             [.embed query_text,
              .search query_embedding cfg.max_results cfg.similarity_threshold,
              .generate prompt])
        | .ok answer =>
            ({ answer := some answer,
               sources := some (source_attribution search_results).dedup,
               chunks_used := some chunks.length,
               similarity_scores := some (search_results.map Hit.score),
               query := some query_text,
               response_time := some elapsed,
               model := some cfg.GEMINI_MODEL },
             [.embed query_text,
              .search query_embedding cfg.max_results cfg.similarity_threshold,
              .generate prompt])

/-- `RAGService.query_selected_text`: selected-text mode. Returns the
response dict and the ordered list of collaborator calls made. -/
def query_selected_text (P : Providers) (cfg : Config) (elapsed : ℚ)
    (query_text selected_text : String) : ResponseDict × List CallEvent :=
  let prompt := selectedTextPrompt selected_text query_text
  match P.generate_content prompt with
  | .error e => (selectedErrorResponse query_text e, [.generate prompt])
  | .ok answer =>
      ({ answer := some answer,
         source := some "User-selected text",
         query := some query_text,
         selected_text_length := some selected_text.length,
         response_time := some elapsed,
         model := some cfg.GEMINI_MODEL },
       [.generate prompt])

/-- Whether a call trace contains a generation-provider call. -/
def callsGeneration (events : List CallEvent) : Bool :=
  events.any fun e => match e with | .generate _ => true | _ => false

/-- Whether a call trace contains an embedding-provider call. -/
def callsEmbedding (events : List CallEvent) : Bool :=
  events.any fun e => match e with | .embed _ => true | _ => false

/-- Whether a call trace contains a vector-index search call. -/
def callsSearch (events : List CallEvent) : Bool :=
  events.any fun e => match e with | .search _ _ _ => true | _ => false

/-- The successful-search hit of the spec's worked scenario. -/
def sampleHit : Hit :=
  { payload_content := some "A humanoid robot mimics human form.",
    payload_filename := some "ch1.pdf",
    score := Rat.divInt 17 20 }

/-- A concrete configuration with the default threshold and limit. -/
def cfg0 : Config :=
  { similarity_threshold := Rat.divInt 7 10,
    max_results := 5,
    GEMINI_MODEL := "gemini-flash" }

/-- Collaborators for which every call succeeds and search finds one hit. -/
def okProviders : Providers :=
  { get_embedding := fun _ => .ok [1],
    search_vectors := fun _ => .ok [sampleHit],
    generate_content := fun _ => .ok "ans" }

/-- Collaborators for which search returns zero hits above threshold. -/
def emptyProviders : Providers :=
  { get_embedding := fun _ => .ok [1],
    search_vectors := fun _ => .ok [],
    generate_content := fun _ => .ok "ans" }

/-- Collaborators whose generation call raises with message "boom". -/
def genFailProviders : Providers :=
  { get_embedding := fun _ => .ok [1],
    search_vectors := fun _ => .ok [sampleHit],
    generate_content := fun _ => .error "boom" }

/-- Collaborators whose embedding call raises with message "boom". -/
def embedFailProviders : Providers :=
  { get_embedding := fun _ => .error "boom",
    search_vectors := fun _ => .ok [sampleHit],
    generate_content := fun _ => .ok "ans" }

/-- A hit whose payload has content but no filename. -/
def noNameHit : Hit :=
  { payload_content := some "X",
    payload_filename := none,
    score := Rat.divInt 1 2 }

/-- Collaborators whose search returns two hits, the second filename-less. -/
def twoHitProviders : Providers :=
  { get_embedding := fun _ => .ok [1],
    search_vectors := fun _ => .ok [sampleHit, noNameHit],
    generate_content := fun _ => .ok "ans" }

/-- Branch equation: embedding call raises. -/
theorem query_rag_embed_error (P : Providers) (cfg : Config) (elapsed : ℚ)
    (q e : String) (h : P.get_embedding q = .error e) :
    query_rag P cfg elapsed q = (ragErrorResponse q e, [.embed q]) := by
  simp [query_rag, h]

/-- Branch equation: search call raises. -/
theorem query_rag_search_error (P : Providers) (cfg : Config) (elapsed : ℚ)
    (q e : String) (v : List ℚ)
    (h1 : P.get_embedding q = .ok v) (h2 : P.search_vectors v = .error e) :
    query_rag P cfg elapsed q =
      (ragErrorResponse q e,
       [.embed q, .search v cfg.max_results cfg.similarity_threshold]) := by
  simp [query_rag, h1, h2]

/-- Branch equation: search returns zero hits. -/
theorem query_rag_no_hits (P : Providers) (cfg : Config) (elapsed : ℚ)
    (q : String) (v : List ℚ)
    (h1 : P.get_embedding q = .ok v) (h2 : P.search_vectors v = .ok []) :
    query_rag P cfg elapsed q =
      (notFoundResponse q elapsed,
       [.embed q, .search v cfg.max_results cfg.similarity_threshold]) := by
  simp [query_rag, h1, h2]

/-- Branch equation: non-empty hits, generation call raises. -/
theorem query_rag_gen_error (P : Providers) (cfg : Config) (elapsed : ℚ)
    (q e : String) (v : List ℚ) (hits : List Hit)
    (h1 : P.get_embedding q = .ok v) (h2 : P.search_vectors v = .ok hits)
    (hne : hits ≠ [])
    (h3 : P.generate_content
        (ragPrompt (String.intercalate "\n\n---\n\n" (context_chunks hits)) q)
      = .error e) :
    query_rag P cfg elapsed q =
      (ragErrorResponse q e,
       [.embed q, .search v cfg.max_results cfg.similarity_threshold,
        .generate (ragPrompt
          (String.intercalate "\n\n---\n\n" (context_chunks hits)) q)]) := by
  obtain ⟨a, t, rfl⟩ := List.exists_cons_of_ne_nil hne
  simp [query_rag, h1, h2, h3]

/-- Branch equation: non-empty hits, generation succeeds. -/
theorem query_rag_success (P : Providers) (cfg : Config) (elapsed : ℚ)
    (q ans : String) (v : List ℚ) (hits : List Hit)
    (h1 : P.get_embedding q = .ok v) (h2 : P.search_vectors v = .ok hits)
    (hne : hits ≠ [])
    (h3 : P.generate_content
        (ragPrompt (String.intercalate "\n\n---\n\n" (context_chunks hits)) q)
      = .ok ans) :
    query_rag P cfg elapsed q =
      ({ answer := some ans,
         sources := some (source_attribution hits).dedup,
         chunks_used := some (context_chunks hits).length,
         similarity_scores := some (hits.map Hit.score),
         query := some q,
         response_time := some elapsed,
         model := some cfg.GEMINI_MODEL },
       [.embed q, .search v cfg.max_results cfg.similarity_threshold,
        .generate (ragPrompt
          (String.intercalate "\n\n---\n\n" (context_chunks hits)) q)]) := by
  obtain ⟨a, t, rfl⟩ := List.exists_cons_of_ne_nil hne
  simp [query_rag, h1, h2, h3]

/-- The loop pushes to `context_chunks` and `source_attribution` together:
the two lists always have the same length. -/
theorem buildChunksAux_snd_length (i : Nat) (hits : List Hit) :
    (buildChunksAux i hits).2.length = (buildChunksAux i hits).1.length := by
  induction hits generalizing i with
  | nil => rfl
  | cons a t ih =>
    cases h : a.payload_content <;> simp [buildChunksAux, h, ih]

/-- Each hit contributes at most one context block. -/
theorem buildChunksAux_fst_length_le (i : Nat) (hits : List Hit) :
    (buildChunksAux i hits).1.length ≤ hits.length := by
  induction hits generalizing i with
  | nil => exact Nat.le_refl 0
  | cons a t ih =>
    cases h : a.payload_content with
    | none =>
        simp only [buildChunksAux, h]
        exact Nat.le_succ_of_le (ih (i + 1))
    | some c =>
        simp only [buildChunksAux, h, List.length_cons]
        exact Nat.succ_le_succ (ih (i + 1))

/-- When every payload has a `content` key, the loop builds exactly one
block per hit, in hit order, each in the exact labeled format with the
`chunk_<index>` filename fallback. -/
theorem buildChunksAux_all_content (i : Nat) (hits : List Hit)
    (hall : ∀ x ∈ hits, x.payload_content.isSome = true) :
    (buildChunksAux i hits).1 = (hits.enumFrom i).map (fun p =>
      "[Source: " ++ p.2.payload_filename.getD ("chunk_" ++ toString p.1)
        ++ ", Score: " ++ fmt3 p.2.score ++ "]\n"
        ++ p.2.payload_content.getD "") := by
  induction hits generalizing i with
  | nil => rfl
  | cons a t ih =>
    have ha : a.payload_content.isSome = true := hall a (List.mem_cons_self a t)
    obtain ⟨c, hc⟩ := Option.isSome_iff_exists.mp ha
    have ht : ∀ x ∈ t, x.payload_content.isSome = true :=
      fun x hx => hall x (List.mem_cons_of_mem a hx)
    simp [buildChunksAux, hc, filenameOf, List.enumFrom, ih (i + 1) ht]

/-- When every payload has a `content` key, one block is built per hit. -/
theorem buildChunksAux_length_all_content (i : Nat) (hits : List Hit)
    (hall : ∀ x ∈ hits, x.payload_content.isSome = true) :
    (buildChunksAux i hits).1.length = hits.length := by
  rw [buildChunksAux_all_content i hits hall]
  simp [List.enumFrom_length]

/-- Branch equation: selected-text mode, generation call raises. -/
theorem query_selected_text_gen_error (P : Providers) (cfg : Config)
    (elapsed : ℚ) (q sel e : String)
    (h : P.generate_content (selectedTextPrompt sel q) = .error e) :
    query_selected_text P cfg elapsed q sel =
      (selectedErrorResponse q e, [.generate (selectedTextPrompt sel q)]) := by
  simp [query_selected_text, h]

/-- Branch equation: selected-text mode, generation succeeds. -/
theorem query_selected_text_success (P : Providers) (cfg : Config)
    (elapsed : ℚ) (q sel ans : String)
    (h : P.generate_content (selectedTextPrompt sel q) = .ok ans) :
    query_selected_text P cfg elapsed q sel =
      ({ answer := some ans,
         source := some "User-selected text",
         query := some q,
         selected_text_length := some sel.length,
         response_time := some elapsed,
         model := some cfg.GEMINI_MODEL },
       [.generate (selectedTextPrompt sel q)]) := by
  simp [query_selected_text, h]

/-- C1: when the vector search returns zero hits above the similarity
threshold, `query_rag` short-circuits: the response has `chunks_used = 0`,
empty `sources`, the fixed not-found sentence as `answer`, and the measured
elapsed time, and the generation provider is never invoked. -/
theorem C1_zero_hit_short_circuit (P : Providers) (cfg : Config)
    (elapsed : ℚ) (q : String) (v : List ℚ)
    (hemb : P.get_embedding q = .ok v)
    (hsearch : P.search_vectors v = .ok []) :
    (query_rag P cfg elapsed q).1.chunks_used = some 0 ∧
    (query_rag P cfg elapsed q).1.sources = some [] ∧
    (query_rag P cfg elapsed q).1.answer =
      some "I couldn\x27t find relevant information in the textbook." ∧
    (query_rag P cfg elapsed q).1.response_time = some elapsed ∧
    callsGeneration (query_rag P cfg elapsed q).2 = false := by
  rw [query_rag_no_hits P cfg elapsed q v hemb hsearch]
  exact ⟨rfl, rfl, rfl, rfl, rfl⟩

/-- Witness for C1 at a concrete zero-hit collaborator set. -/
theorem C1_zero_hit_short_circuit_witness :
    (query_rag emptyProviders cfg0 1 "q").1.chunks_used = some 0 ∧
    (query_rag emptyProviders cfg0 1 "q").1.sources = some [] ∧
    (query_rag emptyProviders cfg0 1 "q").1.answer =
      some "I couldn\x27t find relevant information in the textbook." ∧
    (query_rag emptyProviders cfg0 1 "q").1.response_time = some 1 ∧
    callsGeneration (query_rag emptyProviders cfg0 1 "q").2 = false :=
  C1_zero_hit_short_circuit emptyProviders cfg0 1 "q" [1] rfl rfl

/-- C8: `query_selected_text` makes exactly one collaborator call, the
generation call; it never calls the embedding provider or the vector
index, whatever the generation outcome. -/
theorem C8_selected_text_calls_only_generation (P : Providers) (cfg : Config)
    (elapsed : ℚ) (q sel : String) :
    (query_selected_text P cfg elapsed q sel).2 =
      [CallEvent.generate (selectedTextPrompt sel q)] ∧
    callsEmbedding (query_selected_text P cfg elapsed q sel).2 = false ∧
    callsSearch (query_selected_text P cfg elapsed q sel).2 = false := by
  rcases hG : P.generate_content (selectedTextPrompt sel q) with e | ans
  · rw [query_selected_text_gen_error P cfg elapsed q sel e hG]
    exact ⟨rfl, rfl, rfl⟩
  · rw [query_selected_text_success P cfg elapsed q sel ans hG]
    exact ⟨rfl, rfl, rfl⟩

/-- C9: a successful selected-text query returns the generated answer, the
constant source tag "User-selected text", the echoed query, the character
count of the selected text, the elapsed time, and the model identifier. -/
theorem C9_selected_text_success_shape (P : Providers) (cfg : Config)
    (elapsed : ℚ) (q sel ans : String)
    (hgen : P.generate_content (selectedTextPrompt sel q) = .ok ans) :
    (query_selected_text P cfg elapsed q sel).1.answer = some ans ∧
    (query_selected_text P cfg elapsed q sel).1.source =
      some "User-selected text" ∧
    (query_selected_text P cfg elapsed q sel).1.query = some q ∧
    (query_selected_text P cfg elapsed q sel).1.selected_text_length =
      some sel.length ∧
    (query_selected_text P cfg elapsed q sel).1.response_time =
      some elapsed ∧
    (query_selected_text P cfg elapsed q sel).1.model =
      some cfg.GEMINI_MODEL := by
  rw [query_selected_text_success P cfg elapsed q sel ans hgen]
  exact ⟨rfl, rfl, rfl, rfl, rfl, rfl⟩

/-- Witness for C9 at the spec's worked scenario: the selected text
"The sky is blue." has character count 16. -/
theorem C9_selected_text_success_shape_witness :
    (query_selected_text okProviders cfg0 1 "What color is the sky?"
      "The sky is blue.").1.answer = some "ans" ∧
    (query_selected_text okProviders cfg0 1 "What color is the sky?"
      "The sky is blue.").1.source = some "User-selected text" ∧
    (query_selected_text okProviders cfg0 1 "What color is the sky?"
      "The sky is blue.").1.query = some "What color is the sky?" ∧
    (query_selected_text okProviders cfg0 1 "What color is the sky?"
      "The sky is blue.").1.selected_text_length = some 16 ∧
    (query_selected_text okProviders cfg0 1 "What color is the sky?"
      "The sky is blue.").1.response_time = some 1 ∧
    (query_selected_text okProviders cfg0 1 "What color is the sky?"
      "The sky is blue.").1.model = some "gemini-flash" :=
  C9_selected_text_success_shape okProviders cfg0 1 "What color is the sky?"
    "The sky is blue." "ans" rfl

/-- C10 (implicit): in every branch of both operations — success, zero-hit
short-circuit, and provider failure — the returned dict carries a `query`
key equal to the input query and an `answer` key holding a string. -/
theorem C10_query_echoed_answer_present (P : Providers) (cfg : Config)
    (elapsed : ℚ) (q sel : String) :
    (query_rag P cfg elapsed q).1.query = some q ∧
    ((query_rag P cfg elapsed q).1.answer).isSome = true ∧
    (query_selected_text P cfg elapsed q sel).1.query = some q ∧
    ((query_selected_text P cfg elapsed q sel).1.answer).isSome = true := by
  have hsel : (query_selected_text P cfg elapsed q sel).1.query = some q ∧
      ((query_selected_text P cfg elapsed q sel).1.answer).isSome = true := by
    rcases hG : P.generate_content (selectedTextPrompt sel q) with e | ans
    · rw [query_selected_text_gen_error P cfg elapsed q sel e hG]
      exact ⟨rfl, rfl⟩
    · rw [query_selected_text_success P cfg elapsed q sel ans hG]
      exact ⟨rfl, rfl⟩
  have hrag : (query_rag P cfg elapsed q).1.query = some q ∧
      ((query_rag P cfg elapsed q).1.answer).isSome = true := by
    rcases hE : P.get_embedding q with e | v
    · rw [query_rag_embed_error P cfg elapsed q e hE]; exact ⟨rfl, rfl⟩
    · rcases hS : P.search_vectors v with e | hits
      · rw [query_rag_search_error P cfg elapsed q e v hE hS]; exact ⟨rfl, rfl⟩
      · rcases hits with _ | ⟨a, t⟩
        · rw [query_rag_no_hits P cfg elapsed q v hE hS]; exact ⟨rfl, rfl⟩
        · rcases hG : P.generate_content (ragPrompt (String.intercalate
              "\n\n---\n\n" (context_chunks (a :: t))) q) with e | ans
          · rw [query_rag_gen_error P cfg elapsed q e v (a :: t) hE hS
              (List.cons_ne_nil a t) hG]
            exact ⟨rfl, rfl⟩
          · rw [query_rag_success P cfg elapsed q ans v (a :: t) hE hS
              (List.cons_ne_nil a t) hG]
            exact ⟨rfl, rfl⟩
  exact ⟨hrag.1, hrag.2, hsel.1, hsel.2⟩

/-- C2 counterexample: the claim says the selected-text failure response's
`error` field holds the failure message. At a concrete collaborator set
whose generation call raises "boom", the selected-text response has no
`error` key at all (only `answer = "Error: boom"` and `source = "Error"`). -/
theorem C2_counterexample_selected_error_field :
    (query_selected_text genFailProviders cfg0 1 "q" "s").1.error = none ∧
    (query_selected_text genFailProviders cfg0 1 "q" "s").1.answer =
      some "Error: boom" ∧
    (query_selected_text genFailProviders cfg0 1 "q" "s").1.source =
      some "Error" := ⟨rfl, rfl, rfl⟩

/-- C2 as amended: any upstream provider failure is caught and turned into
a returned response; in full-corpus mode the response is `ragErrorResponse`
(whose `error` field holds the message and whose `answer` is
"Error processing your query: <message>"); in selected-text mode the
response is `selectedErrorResponse` (whose `answer` is exactly
"Error: <message>" and whose `source` is "Error", with no `error` field). -/
theorem C2_error_response_shapes (P : Providers) (cfg : Config)
    (elapsed : ℚ) (q sel m : String) :
    (P.get_embedding q = .error m →
      (query_rag P cfg elapsed q).1 = ragErrorResponse q m) ∧
    (∀ v, P.get_embedding q = .ok v → P.search_vectors v = .error m →
      (query_rag P cfg elapsed q).1 = ragErrorResponse q m) ∧
    (∀ v hits, P.get_embedding q = .ok v → P.search_vectors v = .ok hits →
      hits ≠ [] →
      P.generate_content (ragPrompt
        (String.intercalate "\n\n---\n\n" (context_chunks hits)) q)
        = .error m →
      (query_rag P cfg elapsed q).1 = ragErrorResponse q m) ∧
    (P.generate_content (selectedTextPrompt sel q) = .error m →
      (query_selected_text P cfg elapsed q sel).1 = selectedErrorResponse q m ∧
      (query_selected_text P cfg elapsed q sel).1.error = none) := by
  refine ⟨?_, ?_, ?_, ?_⟩
  · intro h
    rw [query_rag_embed_error P cfg elapsed q m h]
  · intro v h1 h2
    rw [query_rag_search_error P cfg elapsed q m v h1 h2]
  · intro v hits h1 h2 hne h3
    rw [query_rag_gen_error P cfg elapsed q m v hits h1 h2 hne h3]
  · intro h
    rw [query_selected_text_gen_error P cfg elapsed q sel m h]
    exact ⟨rfl, rfl⟩

/-- Witness for C2 as amended, at an embedding failure in full-corpus mode
and a generation failure in selected-text mode. -/
theorem C2_error_response_shapes_witness :
    (query_rag embedFailProviders cfg0 1 "q").1 = ragErrorResponse "q" "boom" ∧
    (query_selected_text genFailProviders cfg0 1 "q" "s").1 =
      selectedErrorResponse "q" "boom" :=
  ⟨(C2_error_response_shapes embedFailProviders cfg0 1 "q" "s" "boom").1 rfl,
   ((C2_error_response_shapes genFailProviders cfg0 1 "q" "s" "boom").2.2.2
      rfl).1⟩

/-- C5 counterexample: the claim says every `query_rag` response — the
zero-hit short-circuit included — carries all `AnswerResponse` fields. At a
concrete zero-hit collaborator set, the short-circuit response has no
`similarity_scores` and no `model` key. -/
theorem C5_counterexample_missing_fields :
    (query_rag emptyProviders cfg0 1 "q").1.similarity_scores = none ∧
    (query_rag emptyProviders cfg0 1 "q").1.model = none := ⟨rfl, rfl⟩

/-- C5 as amended: only the successful `query_rag` response carries all
seven `AnswerResponse` fields. The zero-hit short-circuit carries answer,
sources, chunk count, echoed query and elapsed time but omits the
similarity-score list and the model identifier; the provider-failure
response carries answer, sources, error message and echoed query but omits
chunk count, similarity scores, elapsed time and model identifier. -/
theorem C5_field_presence_by_branch (P : Providers) (cfg : Config)
    (elapsed : ℚ) (q : String) :
    (∀ v, P.get_embedding q = .ok v → P.search_vectors v = .ok [] →
      ((query_rag P cfg elapsed q).1.answer).isSome = true ∧
      ((query_rag P cfg elapsed q).1.sources).isSome = true ∧
      (query_rag P cfg elapsed q).1.chunks_used = some 0 ∧
      (query_rag P cfg elapsed q).1.query = some q ∧
      ((query_rag P cfg elapsed q).1.response_time).isSome = true ∧
      (query_rag P cfg elapsed q).1.similarity_scores = none ∧
      (query_rag P cfg elapsed q).1.model = none) ∧
    (∀ v hits ans, P.get_embedding q = .ok v →
      P.search_vectors v = .ok hits → hits ≠ [] →
      P.generate_content (ragPrompt
        (String.intercalate "\n\n---\n\n" (context_chunks hits)) q)
        = .ok ans →
      ((query_rag P cfg elapsed q).1.answer).isSome = true ∧
      ((query_rag P cfg elapsed q).1.sources).isSome = true ∧
      ((query_rag P cfg elapsed q).1.chunks_used).isSome = true ∧
      ((query_rag P cfg elapsed q).1.similarity_scores).isSome = true ∧
      (query_rag P cfg elapsed q).1.query = some q ∧
      (query_rag P cfg elapsed q).1.response_time = some elapsed ∧
      (query_rag P cfg elapsed q).1.model = some cfg.GEMINI_MODEL) ∧
    (∀ m, P.get_embedding q = .error m →
      ((query_rag P cfg elapsed q).1.answer).isSome = true ∧
      ((query_rag P cfg elapsed q).1.sources).isSome = true ∧
      (query_rag P cfg elapsed q).1.error = some m ∧
      (query_rag P cfg elapsed q).1.query = some q ∧
      (query_rag P cfg elapsed q).1.chunks_used = none ∧
      (query_rag P cfg elapsed q).1.similarity_scores = none ∧
      (query_rag P cfg elapsed q).1.response_time = none ∧
      (query_rag P cfg elapsed q).1.model = none) := by
  refine ⟨?_, ?_, ?_⟩
  · intro v h1 h2
    rw [query_rag_no_hits P cfg elapsed q v h1 h2]
    exact ⟨rfl, rfl, rfl, rfl, rfl, rfl, rfl⟩
  · intro v hits ans h1 h2 hne h3
    rw [query_rag_success P cfg elapsed q ans v hits h1 h2 hne h3]
    exact ⟨rfl, rfl, rfl, rfl, rfl, rfl, rfl⟩
  · intro m h
    rw [query_rag_embed_error P cfg elapsed q m h]
    exact ⟨rfl, rfl, rfl, rfl, rfl, rfl, rfl, rfl⟩

/-- Witness for C5 as amended, at a concrete zero-hit collaborator set. -/
theorem C5_field_presence_by_branch_witness :
    ((query_rag emptyProviders cfg0 1 "q").1.answer).isSome = true ∧
    ((query_rag emptyProviders cfg0 1 "q").1.sources).isSome = true ∧
    (query_rag emptyProviders cfg0 1 "q").1.chunks_used = some 0 ∧
    (query_rag emptyProviders cfg0 1 "q").1.query = some "q" ∧
    ((query_rag emptyProviders cfg0 1 "q").1.response_time).isSome = true ∧
    (query_rag emptyProviders cfg0 1 "q").1.similarity_scores = none ∧
    (query_rag emptyProviders cfg0 1 "q").1.model = none :=
  (C5_field_presence_by_branch emptyProviders cfg0 1 "q").1 [1] rfl rfl

/-- C3: for hits from the vector index (whose payloads carry content), each
context block is exactly
`"[Source: <filename>, Score: <score to 3 decimals>]\n<content>"`, with the
synthetic `chunk_<index>` filename when the payload omits one; the blocks
are joined by the exact separator `"\n\n---\n\n"` inside the prompt sent to
the generation provider. -/
theorem C3_context_block_format (P : Providers) (cfg : Config) (elapsed : ℚ)
    (q : String) (v : List ℚ) (hits : List Hit)
    (hemb : P.get_embedding q = .ok v)
    (hsearch : P.search_vectors v = .ok hits)
    (hne : hits ≠ [])
    (hall : ∀ x ∈ hits, x.payload_content.isSome = true) :
    context_chunks hits = (hits.enumFrom 0).map (fun p =>
      "[Source: " ++ p.2.payload_filename.getD ("chunk_" ++ toString p.1)
        ++ ", Score: " ++ fmt3 p.2.score ++ "]\n"
        ++ p.2.payload_content.getD "") ∧
    CallEvent.generate (ragPrompt
        (String.intercalate "\n\n---\n\n" (context_chunks hits)) q)
      ∈ (query_rag P cfg elapsed q).2 := by
  refine ⟨buildChunksAux_all_content 0 hits hall, ?_⟩
  rcases hG : P.generate_content (ragPrompt
      (String.intercalate "\n\n---\n\n" (context_chunks hits)) q) with e | ans
  · rw [query_rag_gen_error P cfg elapsed q e v hits hemb hsearch hne hG]
    simp
  · rw [query_rag_success P cfg elapsed q ans v hits hemb hsearch hne hG]
    simp

/-- Witness for C3 at two concrete hits, the second without a filename:
the fallback name is `chunk_1` and the score prints with 3 decimals. -/
theorem C3_context_block_format_witness :
    context_chunks [sampleHit, noNameHit] =
      ["[Source: ch1.pdf, Score: 0.850]\nA humanoid robot mimics human form.",
       "[Source: chunk_1, Score: 0.500]\nX"] ∧
    CallEvent.generate (ragPrompt
        "[Source: ch1.pdf, Score: 0.850]\nA humanoid robot mimics human form.\n\n---\n\n[Source: chunk_1, Score: 0.500]\nX"
        "q")
      ∈ (query_rag twoHitProviders cfg0 1 "q").2 :=
  C3_context_block_format twoHitProviders cfg0 1 "q" [1] [sampleHit, noNameHit]
    rfl rfl (List.cons_ne_nil sampleHit [noNameHit]) (by decide)

/-- C4: for a non-empty hit list whose payloads all carry content (as the
vector-index contract guarantees), `query_rag` builds one labeled block per
hit, so the block count and `chunks_used` both equal the number of hits. -/
theorem C4_one_block_per_hit (P : Providers) (cfg : Config) (elapsed : ℚ)
    (q ans : String) (v : List ℚ) (hits : List Hit)
    (hemb : P.get_embedding q = .ok v)
    (hsearch : P.search_vectors v = .ok hits)
    (hne : hits ≠ [])
    (hall : ∀ x ∈ hits, x.payload_content.isSome = true)
    (hgen : P.generate_content (ragPrompt
        (String.intercalate "\n\n---\n\n" (context_chunks hits)) q)
      = .ok ans) :
    (context_chunks hits).length = hits.length ∧
    (query_rag P cfg elapsed q).1.chunks_used = some hits.length := by
  have hlen : (context_chunks hits).length = hits.length :=
    buildChunksAux_length_all_content 0 hits hall
  refine ⟨hlen, ?_⟩
  rw [query_rag_success P cfg elapsed q ans v hits hemb hsearch hne hgen]
  simpa using congrArg some hlen

/-- Witness for C4 at the two-hit collaborator set. -/
theorem C4_one_block_per_hit_witness :
    (context_chunks [sampleHit, noNameHit]).length = 2 ∧
    (query_rag twoHitProviders cfg0 1 "q").1.chunks_used = some 2 :=
  C4_one_block_per_hit twoHitProviders cfg0 1 "q" "ans" [1]
    [sampleHit, noNameHit] rfl rfl (List.cons_ne_nil sampleHit [noNameHit])
    (by decide) rfl

/-- C6: a successful full-corpus query returns the generated answer, a
deduplicated source list (no filename twice, same filename set as the
attribution list built by the loop), the chunk count used in context
assembly, the raw score list one per hit in hit order, the echoed query,
the elapsed time, and the configured model identifier. -/
theorem C6_success_response_shape (P : Providers) (cfg : Config)
    (elapsed : ℚ) (q ans : String) (v : List ℚ) (hits : List Hit)
    (hemb : P.get_embedding q = .ok v)
    (hsearch : P.search_vectors v = .ok hits)
    (hne : hits ≠ [])
    (hgen : P.generate_content (ragPrompt
        (String.intercalate "\n\n---\n\n" (context_chunks hits)) q)
      = .ok ans) :
    (query_rag P cfg elapsed q).1.answer = some ans ∧
    ((query_rag P cfg elapsed q).1.sources).isSome = true ∧
    ((query_rag P cfg elapsed q).1.sources.getD []).Nodup ∧
    ((query_rag P cfg elapsed q).1.sources.getD []).toFinset =
      (source_attribution hits).toFinset ∧
    (query_rag P cfg elapsed q).1.chunks_used =
      some (context_chunks hits).length ∧
    (query_rag P cfg elapsed q).1.similarity_scores =
      some (hits.map Hit.score) ∧
    (query_rag P cfg elapsed q).1.query = some q ∧
    (query_rag P cfg elapsed q).1.response_time = some elapsed ∧
    (query_rag P cfg elapsed q).1.model = some cfg.GEMINI_MODEL := by
  rw [query_rag_success P cfg elapsed q ans v hits hemb hsearch hne hgen]
  refine ⟨rfl, rfl, ?_, ?_, rfl, rfl, rfl, rfl, rfl⟩
  · simpa using List.nodup_dedup (source_attribution hits)
  · simp only [Option.getD_some]
    ext a
    simp [List.mem_dedup]

/-- Witness for C6 at the two-hit collaborator set. -/
theorem C6_success_response_shape_witness :
    (query_rag twoHitProviders cfg0 1 "q").1.answer = some "ans" ∧
    ((query_rag twoHitProviders cfg0 1 "q").1.sources).isSome = true ∧
    ((query_rag twoHitProviders cfg0 1 "q").1.sources.getD []).Nodup ∧
    ((query_rag twoHitProviders cfg0 1 "q").1.sources.getD []).toFinset =
      (source_attribution [sampleHit, noNameHit]).toFinset ∧
    (query_rag twoHitProviders cfg0 1 "q").1.chunks_used = some 2 ∧
    (query_rag twoHitProviders cfg0 1 "q").1.similarity_scores =
      some [Rat.divInt 17 20, Rat.divInt 1 2] ∧
    (query_rag twoHitProviders cfg0 1 "q").1.query = some "q" ∧
    (query_rag twoHitProviders cfg0 1 "q").1.response_time = some 1 ∧
    (query_rag twoHitProviders cfg0 1 "q").1.model = some "gemini-flash" :=
  C6_success_response_shape twoHitProviders cfg0 1 "q" "ans" [1]
    [sampleHit, noNameHit] rfl rfl (List.cons_ne_nil sampleHit [noNameHit])
    rfl

/-- C7: on a successful non-empty-hit query, the deduplicated source list
is never longer than the similarity-score list, and `chunks_used` equals
the number of blocks passed into context assembly. -/
theorem C7_source_count_le_scores (P : Providers) (cfg : Config)
    (elapsed : ℚ) (q ans : String) (v : List ℚ) (hits : List Hit)
    (hemb : P.get_embedding q = .ok v)
    (hsearch : P.search_vectors v = .ok hits)
    (hne : hits ≠ [])
    (hgen : P.generate_content (ragPrompt
        (String.intercalate "\n\n---\n\n" (context_chunks hits)) q)
      = .ok ans) :
    ((query_rag P cfg elapsed q).1.sources.getD []).length ≤
      ((query_rag P cfg elapsed q).1.similarity_scores.getD []).length ∧
    (query_rag P cfg elapsed q).1.chunks_used =
      some (context_chunks hits).length := by
  rw [query_rag_success P cfg elapsed q ans v hits hemb hsearch hne hgen]
  refine ⟨?_, rfl⟩
  simp only [Option.getD_some, List.length_map]
  calc (source_attribution hits).dedup.length
      ≤ (source_attribution hits).length :=
        (List.dedup_sublist (source_attribution hits)).length_le
    _ = (context_chunks hits).length := buildChunksAux_snd_length 0 hits
    _ ≤ hits.length := buildChunksAux_fst_length_le 0 hits

/-- Witness for C7 at the two-hit collaborator set. -/
theorem C7_source_count_le_scores_witness :
    ((query_rag twoHitProviders cfg0 1 "q").1.sources.getD []).length ≤
      ((query_rag twoHitProviders cfg0 1 "q").1.similarity_scores.getD
        []).length ∧
    (query_rag twoHitProviders cfg0 1 "q").1.chunks_used = some 2 :=
  C7_source_count_le_scores twoHitProviders cfg0 1 "q" "ans" [1]
    [sampleHit, noNameHit] rfl rfl (List.cons_ne_nil sampleHit [noNameHit])
    rfl
